import Mathlib

/-!
Shallow embedding of the gopi-sysfs GPIO port lifecycle (package gopisysfs).
File reads, writes and existence checks are environment responses passed in
explicitly; each Go function becomes a Lean function from those responses to
its result, a trace of emitted I/O events, and the updated port state.
-/

namespace Gopi

/-- Classification of a Go I/O error as seen through os.IsPermission:
either a permissions error or any other error. -/
inductive FileErr where
  | permission
  | other
deriving DecidableEq, Repr

/-- os.IsPermission applied to a possibly nil error: true exactly when the
error is non-nil and is a permissions error. -/
def isPermission : Option FileErr → Bool
  | some FileErr.permission => true
  | _ => false

/-- The error taxonomy of the package: not-enabled, invalid mode, readiness
timeout (carrying the offending path), write and read failures, and errors
surfaced by the file-condition waiter. -/
inductive GErr where
  | notEnabled (port : Nat)
  | invalidMode
  | timeoutErr (path : String)
  | writeFailed (e : FileErr)
  | readFailed (e : FileErr)
  | awaitErr (m : String)
deriving DecidableEq, Repr

/-- Observable I/O events emitted by the port operations, in program order:
file writes with their outcome, invocation of a registered cancellation hook,
clearing of the hook registry, the await-removal wait, and the start of the
value monitor built by buildMonitor. -/
inductive Ev where
  | write (path : String) (content : String) (res : Option FileErr)
  | callHook (h : Nat)
  | clearHooks
  | awaitRemoveEv (path : String)
  | monitorStart (path : String) (buffersize : Int)
deriving DecidableEq, Repr

/-- filepath.Join specialised to one directory and one component. -/
def pathJoin (dir name : String) : String := dir ++ "/" ++ name

/-- The gport structure: the port number, its string form, the derived
control-file paths, and the resetters registry of cancellation hooks
(hooks are identified by a tag so traces can record which one ran). -/
structure GPort where
  port : Nat
  sport : String
  folder : String
  value : String
  direction : String
  edge : String
  exportFile : String
  unexportFile : String
  resetters : List Nat
deriving DecidableEq, Repr

/-- newGpio: derives every path from the gpio directory and the port number,
with an empty resetters registry. -/
def newGpio (gpiodir : String) (port : Nat) : GPort :=
  let sport := toString port
  let folder := pathJoin gpiodir ("gpio" ++ sport)
  { port := port
    sport := sport
    folder := folder
    value := pathJoin folder "value"
    direction := pathJoin folder "direction"
    edge := pathJoin folder "edge"
    exportFile := pathJoin gpiodir "export"
    unexportFile := pathJoin gpiodir "unexport"
    resetters := [] }

/-- Direction token for input mode. -/
def direction_in : String := "in"

/-- Direction token for unspecified output mode. -/
def direction_out : String := "out"

/-- Direction token for output-low mode. -/
def direction_outlow : String := "low"

/-- Direction token for output-high mode. -/
def direction_outhi : String := "high"

/-- Value token for false. -/
def lowTok : String := "0"

/-- Value token for true. -/
def highTok : String := "1"

/-- GPIOMode is a Go int; the named constants below are the iota values. -/
abbrev GPIOMode := Int

/-- GPIOInput = iota 0. -/
def GPIOInput : GPIOMode := 0

/-- GPIOOutput = iota 1. -/
def GPIOOutput : GPIOMode := 1

/-- GPIOOutputLow = iota 2. -/
def GPIOOutputLow : GPIOMode := 2

/-- GPIOOutputHigh = iota 3. -/
def GPIOOutputHigh : GPIOMode := 3

/-- checkEnabled: nil when the per-line folder exists, otherwise the
not-enabled error carrying the port number. -/
def checkEnabled (p : GPort) (folderExists : Bool) : Option GErr :=
  if folderExists then none else some (GErr.notEnabled p.port)

/-! ### Enable readiness polling -/

/-- One iteration of the readiness poll loop inside Enable, as observed from
the environment: whether checkFile found the control file, the outcome of the
placeholder write (meaningful only when the file exists), and whether the
remaining-time branch of the select fired at the end of the iteration. -/
structure PollObs where
  fileExists : Bool
  writeRes : Option FileErr
  timedOut : Bool
deriving DecidableEq, Repr

/-- The break condition of one poll iteration: the file exists and the
placeholder write either succeeded or failed with anything but a
permissions error. -/
def pollStep (o : PollObs) : Bool :=
  o.fileExists && (o.writeRes == none || !(isPermission o.writeRes))

/-- Outcome of the per-file poll loop: the loop broke out with the file
accepted as ready, the select timed out, or the supplied observations ran
out with the loop still going. -/
inductive PollResult where
  | ready
  | timedOut
  | stillPolling
deriving DecidableEq, Repr

/-- The per-file poll loop of Enable, driven by a list of observations.
When the file exists, the placeholder write is recorded in the trace; the
loop breaks when pollStep holds, errors when the timeout branch fires, and
otherwise moves to the next iteration. -/
def pollFileTrace (fname : String) : List PollObs → PollResult × List Ev
  | [] => (PollResult.stillPolling, [])
  | o :: rest =>
    let evs : List Ev := if o.fileExists then [Ev.write fname " " o.writeRes] else []
    if pollStep o then (PollResult.ready, evs)
    else if o.timedOut then (PollResult.timedOut, evs)
    else
      let r := pollFileTrace fname rest
      (r.1, evs ++ r.2)

/-- The poll loop outcome ignoring the trace. -/
def pollFile (fname : String) (obs : List PollObs) : PollResult :=
  (pollFileTrace fname obs).1

/-! ### Enable -/

/-- Environment responses consumed by one call to Enable: the initial
checkFile on the folder, the export write outcome, the two failure points of
awaitFileCreate (the call itself and the value received on its channel), and
the observation streams for the direction-file and edge-file poll loops. -/
structure EnableEnv where
  folderExists : Bool
  exportRes : Option FileErr
  awaitCreateCall : Option String
  awaitCreateRes : Option String
  dirObs : List PollObs
  edgeObs : List PollObs
deriving Repr

/-- Enable: returns nil at once when the folder already exists; otherwise
writes the port number to the export file, awaits folder creation, then runs
the readiness poll loop over the direction file and the edge file (the value
file is deliberately not polled). none models an environment whose
observation stream ended with a poll loop still running. -/
def Enable (p : GPort) (env : EnableEnv) : Option (Except GErr Unit × List Ev) :=
  if env.folderExists then some (Except.ok (), [])
  else
    match env.exportRes with
    | some e => some (Except.error (GErr.writeFailed e), [Ev.write p.exportFile p.sport (some e)])
    | none =>
      let t0 : List Ev := [Ev.write p.exportFile p.sport none]
      match env.awaitCreateCall with
      | some m => some (Except.error (GErr.awaitErr m), t0)
      | none =>
        match env.awaitCreateRes with
        | some m => some (Except.error (GErr.awaitErr m), t0)
        | none =>
          let d := pollFileTrace p.direction env.dirObs
          match d.1 with
          | PollResult.stillPolling => none
          | PollResult.timedOut =>
            some (Except.error (GErr.timeoutErr p.direction), t0 ++ d.2)
          | PollResult.ready =>
            let ed := pollFileTrace p.edge env.edgeObs
            match ed.1 with
            | PollResult.stillPolling => none
            | PollResult.timedOut =>
              some (Except.error (GErr.timeoutErr p.edge), t0 ++ d.2 ++ ed.2)
            | PollResult.ready => some (Except.ok (), t0 ++ d.2 ++ ed.2)

/-! ### Reset -/

/-- Environment responses consumed by one call to Reset: the checkFile on the
folder, the unexport write outcome, and the two failure points of
awaitFileRemove. -/
structure ResetEnv where
  folderExists : Bool
  unexportRes : Option FileErr
  awaitRemoveCall : Option String
  awaitRemoveRes : Option String
deriving Repr

/-- Reset: returns nil at once when the folder is already gone; otherwise
invokes every registered resetter in order, clears the registry, writes the
port number to the unexport file, and awaits folder removal. Returns the
result, the event trace, and the updated port. -/
def Reset (p : GPort) (env : ResetEnv) : Except GErr Unit × List Ev × GPort :=
  if !env.folderExists then (Except.ok (), [], p)
  else
    let t0 := p.resetters.map Ev.callHook ++ [Ev.clearHooks]
    let p' : GPort := { p with resetters := [] }
    match env.unexportRes with
    | some e =>
      (Except.error (GErr.writeFailed e),
        t0 ++ [Ev.write p.unexportFile p.sport (some e)], p')
    | none =>
      let t1 := t0 ++ [Ev.write p.unexportFile p.sport none]
      match env.awaitRemoveCall with
      | some m => (Except.error (GErr.awaitErr m), t1, p')
      | none =>
        let t2 := t1 ++ [Ev.awaitRemoveEv p.folder]
        match env.awaitRemoveRes with
        | some m => (Except.error (GErr.awaitErr m), t2, p')
        | none => (Except.ok (), t2, p')

/-! ### Go channel close semantics and the SetValues cancellation hook -/

/-- The closed flag of a Go channel (the killer channel of SetValues carries
no data that matters here). -/
structure GoChan where
  closed : Bool
deriving DecidableEq, Repr

/-- The run-time fault raised by the Go runtime on closing a closed channel. -/
inductive GoPanic where
  | doubleClose
deriving DecidableEq, Repr

/-- close(ch) in Go: marks an open channel closed, and is a run-time fault
on a channel that is closed already. -/
def closeChan (c : GoChan) : Except GoPanic GoChan :=
  if c.closed then Except.error GoPanic.doubleClose
  else Except.ok { closed := true }

/-- The cleaner that SetValues registers in the resetters registry: a closure
that closes the killer channel. -/
def setValuesCleaner : GoChan → Except GoPanic GoChan := closeChan

/-! ### SetValue and the SetValues background loop -/

/-- Environment responses consumed by one call to SetValue: the checkFile on
the folder and the outcome of the value-file write. -/
structure SetValueEnv where
  folderExists : Bool
  writeRes : Option FileErr
deriving DecidableEq, Repr

/-- SetValue: requires the folder to exist, then writes the token 1 for true
and 0 for false to the value file. -/
def SetValue (p : GPort) (env : SetValueEnv) (value : Bool) : Except GErr Unit × List Ev :=
  match checkEnabled p env.folderExists with
  | some e => (Except.error e, [])
  | none =>
    let val := if value then highTok else lowTok
    match env.writeRes with
    | some e => (Except.error (GErr.writeFailed e), [Ev.write p.value val (some e)])
    | none => (Except.ok (), [Ev.write p.value val none])

/-- What the select statement of the SetValues goroutine observes on one
iteration: the killer channel fired, the input channel was closed, or a value
arrived together with the environment its SetValue call will see. -/
inductive LoopIn where
  | cancel
  | closed
  | recv (v : Bool) (env : SetValueEnv)
deriving DecidableEq, Repr

/-- Why the SetValues goroutine stopped, or that it is still running because
the observation stream ran out. -/
inductive StopReason where
  | running
  | cancelled
  | closedInput
  | writeFailed
deriving DecidableEq, Repr

/-- The observable outcome of the SetValues goroutine: the single error sent
on the one-slot error channel if any, the SetValue calls it made in order
with their results, and why it stopped. -/
structure LoopOut where
  errSent : Option GErr
  calls : List (Bool × Except GErr Unit)
  stop : StopReason
deriving Repr

/-- The body of the SetValues goroutine: loop over select observations; stop
on the killer channel or on input closure, otherwise call SetValue on the
received value and stop at the first failure, sending that error. The
goroutine does not touch the resetters registry. -/
def setValuesLoop (p : GPort) : List LoopIn → LoopOut
  | [] => { errSent := none, calls := [], stop := StopReason.running }
  | LoopIn.cancel :: _ => { errSent := none, calls := [], stop := StopReason.cancelled }
  | LoopIn.closed :: _ => { errSent := none, calls := [], stop := StopReason.closedInput }
  | LoopIn.recv v env :: rest =>
    let s := SetValue p env v
    match s.1 with
    | Except.error e =>
      { errSent := some e, calls := [(v, Except.error e)], stop := StopReason.writeFailed }
    | Except.ok _ =>
      let r := setValuesLoop p rest
      { errSent := r.errSent, calls := (v, Except.ok ()) :: r.calls, stop := r.stop }

/-- The synchronous part of SetValues: requires the folder to exist, then
appends the cleaner of the new stream (identified by hookId) to the
resetters registry and starts the goroutine. -/
def SetValues (p : GPort) (folderExists : Bool) (hookId : Nat) : Except GErr Unit × GPort :=
  match checkEnabled p folderExists with
  | some e => (Except.error e, p)
  | none => (Except.ok (), { p with resetters := p.resetters ++ [hookId] })

/-- A whole SetValues stream: the synchronous registration followed by the
goroutine consuming its observation stream. Returns the call result, the
goroutine outcome, and the port as the stream leaves it. -/
def setValuesRun (p : GPort) (folderExists : Bool) (hookId : Nat) (inputs : List LoopIn) :
    Except GErr Unit × LoopOut × GPort :=
  match SetValues p folderExists hookId with
  | (Except.error e, p') =>
    (Except.error e, { errSent := none, calls := [], stop := StopReason.running }, p')
  | (Except.ok _, p') => (Except.ok (), setValuesLoop p' inputs, p')

/-! ### SetMode -/

/-- Environment responses consumed by one call to SetMode: the checkFile on
the folder and the outcome of the direction-file write. -/
structure SetModeEnv where
  folderExists : Bool
  dirWriteRes : Option FileErr
deriving DecidableEq, Repr

/-- SetMode: requires the folder to exist, maps the mode to its direction
token through the switch statement (any other int value is the invalid-mode
error, written before any file access), then writes the token to the
direction file. -/
def SetMode (p : GPort) (env : SetModeEnv) (mode : GPIOMode) : Except GErr Unit × List Ev :=
  match checkEnabled p env.folderExists with
  | some e => (Except.error e, [])
  | none =>
    let direction : Option String :=
      if mode = GPIOInput then some direction_in
      else if mode = GPIOOutput then some direction_out
      else if mode = GPIOOutputHigh then some direction_outhi
      else if mode = GPIOOutputLow then some direction_outlow
      else none
    match direction with
    | none => (Except.error GErr.invalidMode, [])
    | some d =>
      match env.dirWriteRes with
      | some e => (Except.error (GErr.writeFailed e), [Ev.write p.direction d (some e)])
      | none => (Except.ok (), [Ev.write p.direction d none])

/-! ### Values -/

/-- Environment responses consumed by one call to Values: the checkFile on
the folder, the outcome of the edge-file write, the result of buildMonitor,
and the tag of the cleaner buildMonitor hands back. -/
structure ValuesEnv where
  folderExists : Bool
  edgeWriteRes : Option FileErr
  monitorRes : Option GErr
  monitorHook : Nat
deriving Repr

/-- Values: requires the folder to exist, writes the token both to the edge
file, then calls buildMonitor on the value file with the given buffer size
and appends the cleaner it returns to the resetters registry. A failed edge
write returns at once: buildMonitor is never reached and no hook is
registered. -/
def Values (p : GPort) (env : ValuesEnv) (buffersize : Int) :
    Except GErr Unit × List Ev × GPort :=
  match checkEnabled p env.folderExists with
  | some e => (Except.error e, [], p)
  | none =>
    match env.edgeWriteRes with
    | some e => (Except.error (GErr.writeFailed e), [Ev.write p.edge "both" (some e)], p)
    | none =>
      let t0 : List Ev := [Ev.write p.edge "both" none]
      match env.monitorRes with
      | some e => (Except.error e, t0 ++ [Ev.monitorStart p.value buffersize], p)
      | none =>
        (Except.ok (), t0 ++ [Ev.monitorStart p.value buffersize],
          { p with resetters := p.resetters ++ [env.monitorHook] })

/-! ### The file-condition waiter -/

/-- The single-shot notification handle the waiter returns: whether it
resolved synchronously at call time (and with what result, none meaning
success), and whether a background polling task was spawned. -/
structure AwaitHandle where
  immediateRes : Option (Option GErr)
  spawnsTask : Bool
deriving DecidableEq, Repr

/-- Modelled from the spec: the implementation of awaitFileRemove is not part
of the lifecycle source here, only its callers and tests are. Per the spec,
when the file is already absent at call time the handle resolves
synchronously with success and no background work is spawned; otherwise a
background polling task is started. -/
def awaitFileRemove (fileExists : Bool) : AwaitHandle :=
  if fileExists then { immediateRes := none, spawnsTask := true }
  else { immediateRes := some none, spawnsTask := false }

/-- Modelled from the spec: awaitFileCreate intentionally does not
short-circuit when the file already exists; it always spawns the background
polling task and resolves through it. -/
def awaitFileCreate (_fileExists : Bool) : AwaitHandle :=
  { immediateRes := none, spawnsTask := true }

/-! ### IsOutput -/

/-- Environment responses consumed by one call to IsOutput: the checkFile on
the folder and the result of reading the direction file. -/
structure IsOutputEnv where
  folderExists : Bool
  dirRead : Except FileErr String
deriving Repr

/-- IsOutput: requires the folder to exist, reads the direction file, and
reports true exactly when the content differs from the token in. -/
def IsOutput (p : GPort) (env : IsOutputEnv) : Except GErr Bool :=
  match checkEnabled p env.folderExists with
  | some e => Except.error e
  | none =>
    match env.dirRead with
    | Except.error e => Except.error (GErr.readFailed e)
    | Except.ok d => Except.ok (!(d == "in"))

/-! ### Helper definitions for the theorems -/

/-- An observation that delivers a value whose SetValue call will succeed:
the folder exists at call time and the value write succeeds. -/
def isOkRecv : LoopIn → Bool
  | LoopIn.recv _ env => env.folderExists && env.writeRes == none
  | _ => false

/-- The SetValue calls contributed by a run of receive observations that all
succeed: one successful call per received value, in order. -/
def okCalls : List LoopIn → List (Bool × Except GErr Unit)
  | [] => []
  | LoopIn.recv v _ :: rest => (v, Except.ok ()) :: okCalls rest
  | _ :: rest => okCalls rest

/-- A concrete port with two registered hooks, for evaluating Reset. -/
def pC2 : GPort := { newGpio "/sys/class/gpio" 7 with resetters := [1, 2] }

/-- A concrete Reset environment on an enabled port where every step
succeeds. -/
def envC2 : ResetEnv :=
  { folderExists := true, unexportRes := none, awaitRemoveCall := none,
    awaitRemoveRes := none }

/-- A concrete port for evaluating SetMode. -/
def pC6 : GPort := newGpio "/sys/class/gpio" 21

/-- A concrete port for evaluating the SetValues goroutine. -/
def pC7 : GPort := newGpio "/sys/class/gpio" 18

/-- A concrete port with one registered hook, for evaluating Values. -/
def pC8 : GPort := { newGpio "/sys/class/gpio" 24 with resetters := [5] }

/-! ### C1 -/

/-- C1 counterexample: the claim as stated — in a readiness poll iteration
in which the file exists, any write failure other than a permissions error
keeps the loop polling while a permissions error stops it as ready — is
false at a concrete observation: a non-permission write failure stops the
loop as ready rather than keep it polling. -/
theorem C1_readiness_claim_false :
    ¬ (∀ (fname : String) (e : FileErr) (rest : List PollObs),
        (isPermission (some e) = false →
          pollFile fname ({ fileExists := true, writeRes := some e, timedOut := false } :: rest)
            = pollFile fname rest)
        ∧ (isPermission (some e) = true →
          pollFile fname ({ fileExists := true, writeRes := some e, timedOut := false } :: rest)
            = PollResult.ready)) := by
  intro h
  have h1 := (h "f" FileErr.other []).1 (by decide)
  exact absurd h1 (by decide)

/-- C1 (amended): during the readiness polling of the direction and edge
control files, in every poll iteration in which the file exists a
placeholder write is attempted (it heads the iteration trace); the write
succeeding, or failing with anything other than a permissions error, is
accepted as evidence the file is ready and stops the loop, while a
permissions error is treated as not ready yet and the loop keeps polling. -/
theorem C1_readiness_poll (fname : String) (o : PollObs) (e : FileErr)
    (rest : List PollObs) :
    (pollStep o = true ↔ (o.fileExists = true ∧ isPermission o.writeRes = false))
    ∧ (o.fileExists = true →
        ∃ t, (pollFileTrace fname (o :: rest)).2 = Ev.write fname " " o.writeRes :: t)
    ∧ (isPermission (some e) = true →
        pollFile fname ({ fileExists := true, writeRes := some e, timedOut := false } :: rest)
          = pollFile fname rest)
    ∧ (isPermission (some e) = false →
        pollFile fname ({ fileExists := true, writeRes := some e, timedOut := false } :: rest)
          = PollResult.ready)
    ∧ pollFile fname ({ fileExists := true, writeRes := none, timedOut := false } :: rest)
        = PollResult.ready := by
  refine ⟨?_, ?_, ?_, ?_, ?_⟩
  · rcases o with ⟨fe, wr, td⟩
    simp only [pollStep]
    cases fe
    · simp
    · cases wr with
      | none => simp [isPermission]
      | some we => cases we <;> simp [isPermission]
  · intro hfe
    rcases o with ⟨fe, wr, td⟩
    simp only at hfe
    subst hfe
    by_cases hs : pollStep { fileExists := true, writeRes := wr, timedOut := td } = true <;>
      cases td <;>
      simp [pollFileTrace, hs]
  · intro hp
    cases e
    · simp [pollFile, pollFileTrace, pollStep, isPermission]
    · simp [isPermission] at hp
  · intro hp
    cases e
    · simp [isPermission] at hp
    · simp [pollFile, pollFileTrace, pollStep, isPermission]
  · simp [pollFile, pollFileTrace, pollStep, isPermission]

/-- C1 witness: at concrete observations, a permissions failure leaves the
loop polling and a non-permission failure ends it ready. -/
theorem C1_readiness_poll_witness :
    pollFile "d" [{ fileExists := true, writeRes := some FileErr.permission, timedOut := false }]
      = PollResult.stillPolling
    ∧ pollFile "d" [{ fileExists := true, writeRes := some FileErr.other, timedOut := false }]
      = PollResult.ready := by
  constructor
  · have h := (C1_readiness_poll "d"
      { fileExists := true, writeRes := some FileErr.permission, timedOut := false }
      FileErr.permission []).2.2.1 (by decide)
    exact h.trans (by decide)
  · exact (C1_readiness_poll "d"
      { fileExists := true, writeRes := some FileErr.other, timedOut := false }
      FileErr.other []).2.2.2.1 (by decide)

/-! ### C2 -/

/-- C2: on an enabled port, Reset invokes every cancellation hook of the
registry and clears the registry strictly before any write to the unexport
file: the trace decomposes as the hook invocations in registry order, then
the registry clear, then the unexport write; and the registry the call
leaves behind is empty. -/
theorem C2_Reset_hooks_before_unexport (p : GPort) (env : ResetEnv)
    (h : env.folderExists = true) :
    (∃ r rest, (Reset p env).2.1 =
        p.resetters.map Ev.callHook ++ Ev.clearHooks ::
          Ev.write p.unexportFile p.sport r :: rest)
    ∧ (Reset p env).2.2.resetters = []
    ∧ ∀ hk ∈ p.resetters, Ev.callHook hk ∈ (Reset p env).2.1 := by
  rcases env with ⟨fe, ur, ac, ar⟩
  simp only at h
  subst h
  rcases ur with _ | e
  · rcases ac with _ | m
    · rcases ar with _ | m
      · refine ⟨⟨none, [Ev.awaitRemoveEv p.folder], by simp [Reset]⟩, by simp [Reset], ?_⟩
        intro hk hm
        simp [Reset]
        exact hm
      · refine ⟨⟨none, [Ev.awaitRemoveEv p.folder], by simp [Reset]⟩, by simp [Reset], ?_⟩
        intro hk hm
        simp [Reset]
        exact hm
    · refine ⟨⟨none, [], by simp [Reset]⟩, by simp [Reset], ?_⟩
      intro hk hm
      simp [Reset]
      exact hm
  · refine ⟨⟨some e, [], by simp [Reset]⟩, by simp [Reset], ?_⟩
    intro hk hm
    simp [Reset]
    exact hm

/-- C2 witness: the decomposition evaluated on a concrete enabled port with
two registered hooks. -/
theorem C2_Reset_hooks_before_unexport_witness :
    (∃ r rest, (Reset pC2 envC2).2.1 =
        pC2.resetters.map Ev.callHook ++ Ev.clearHooks ::
          Ev.write pC2.unexportFile pC2.sport r :: rest)
    ∧ (Reset pC2 envC2).2.2.resetters = []
    ∧ ∀ hk ∈ pC2.resetters, Ev.callHook hk ∈ (Reset pC2 envC2).2.1 :=
  C2_Reset_hooks_before_unexport pC2 envC2 rfl

/-! ### C3 -/

/-- C3 counterexample: the claim that triggering the same hook a second time
is a no-op is false for the cleaner SetValues registers: on the freshly made
killer channel the first trigger succeeds and the second trigger is the
double-close run-time fault of the Go runtime, not a successful no-op. -/
theorem C3_hook_idempotent_claim_false :
    ¬ (∀ c c' : GoChan, setValuesCleaner c = Except.ok c' →
        setValuesCleaner c' = Except.ok c') := by
  intro h
  have h1 := h { closed := false } { closed := true } rfl
  simp [setValuesCleaner, closeChan] at h1

/-- C3 (amended): the cleaner SetValues registers is not idempotent-safe:
whenever a first trigger succeeds, a second trigger of the same hook is the
double-close run-time fault. The program itself triggers each hook at most
once, since Reset clears the registry in the same critical section in which
it runs the hooks. -/
theorem C3_hook_second_trigger_faults (c c' : GoChan)
    (h : setValuesCleaner c = Except.ok c') :
    setValuesCleaner c' = Except.error GoPanic.doubleClose := by
  rcases c with ⟨cl⟩
  cases cl
  · simp [setValuesCleaner, closeChan] at h
    subst h
    rfl
  · simp [setValuesCleaner, closeChan] at h

/-- C3 witness: the amended statement evaluated on the freshly made killer
channel. -/
theorem C3_hook_second_trigger_faults_witness :
    setValuesCleaner { closed := true } = Except.error GoPanic.doubleClose :=
  C3_hook_second_trigger_faults { closed := false } { closed := true } rfl

/-! ### C4 -/

/-- C4 counterexample: the claim that a stream removes its own hook from the
registry when it terminates naturally is false at a concrete run: a
SetValues stream on a fresh enabled port whose input closes at once leaves
its hook still registered. -/
theorem C4_self_deregistration_claim_false :
    ¬ (∀ (p : GPort) (hookId : Nat) (inputs : List LoopIn),
        ((setValuesRun p true hookId inputs).2.1.stop = StopReason.closedInput
          ∨ (setValuesRun p true hookId inputs).2.1.stop = StopReason.writeFailed) →
        hookId ∉ (setValuesRun p true hookId inputs).2.2.resetters) := by
  intro h
  exact h (newGpio "/sys/class/gpio" 7) 0 [LoopIn.closed] (Or.inl rfl) (by decide)

/-- C4 (amended): the hook registered by a SetValues stream stays in the
registry of the port until Reset consumes it: the background task never
deregisters it, so after any run of the stream — including natural
termination by input closure or by the first write failure — the registry is
the old registry with the new hook appended, and the hook is still
registered. -/
theorem C4_hook_stays_until_reset (p : GPort) (hookId : Nat) (inputs : List LoopIn) :
    (setValuesRun p true hookId inputs).2.2.resetters = p.resetters ++ [hookId]
    ∧ hookId ∈ (setValuesRun p true hookId inputs).2.2.resetters := by
  constructor
  · simp [setValuesRun, SetValues, checkEnabled]
  · simp [setValuesRun, SetValues, checkEnabled]

/-! ### C5 -/

/-- C5: Enable is idempotent — when the per-line folder already exists,
Enable returns success at once with an empty event trace: in particular no
write to the export file is made, so a second call in the enabled state
succeeds without a further claim request. -/
theorem C5_Enable_idempotent (p : GPort) (env : EnableEnv)
    (h : env.folderExists = true) :
    Enable p env = some (Except.ok (), ([] : List Ev)) := by
  simp [Enable, h]

/-- C5 witness: Enable evaluated on a concrete enabled port. -/
theorem C5_Enable_idempotent_witness :
    Enable (newGpio "/sys/class/gpio" 7)
        { folderExists := true, exportRes := none, awaitCreateCall := none,
          awaitCreateRes := none, dirObs := [], edgeObs := [] }
      = some (Except.ok (), ([] : List Ev)) :=
  C5_Enable_idempotent _ _ rfl

/-! ### C6 -/

/-- C6: SetMode returns the not-enabled error and writes nothing when the
port is not enabled; on an enabled port it writes exactly the token in for
Input, out for unspecified Output, low for Output-Low and high for
Output-High to the direction file; and any other mode value is the
invalid-mode error with no write. -/
theorem C6_SetMode_spec (p : GPort) (env : SetModeEnv) (mode : GPIOMode) :
    (env.folderExists = false →
      SetMode p env mode = (Except.error (GErr.notEnabled p.port), []))
    ∧ (env.folderExists = true → env.dirWriteRes = none →
        SetMode p env GPIOInput = (Except.ok (), [Ev.write p.direction "in" none])
        ∧ SetMode p env GPIOOutput = (Except.ok (), [Ev.write p.direction "out" none])
        ∧ SetMode p env GPIOOutputLow = (Except.ok (), [Ev.write p.direction "low" none])
        ∧ SetMode p env GPIOOutputHigh = (Except.ok (), [Ev.write p.direction "high" none]))
    ∧ (env.folderExists = true → mode ≠ GPIOInput → mode ≠ GPIOOutput →
        mode ≠ GPIOOutputLow → mode ≠ GPIOOutputHigh →
        SetMode p env mode = (Except.error GErr.invalidMode, [])) := by
  refine ⟨?_, ?_, ?_⟩
  · intro h
    simp [SetMode, checkEnabled, h]
  · intro h hw
    refine ⟨?_, ?_, ?_, ?_⟩ <;>
      simp [SetMode, checkEnabled, h, hw, GPIOInput, GPIOOutput, GPIOOutputLow,
        GPIOOutputHigh, direction_in, direction_out, direction_outlow, direction_outhi]
  · intro h h1 h2 h3 h4
    simp [SetMode, checkEnabled, h, h1, h2, h3, h4]

/-- C6 witness: SetMode evaluated on a concrete port at a recognized mode,
an unrecognized mode, and in the disabled state. -/
theorem C6_SetMode_spec_witness :
    SetMode pC6 { folderExists := true, dirWriteRes := none } GPIOInput
      = (Except.ok (), [Ev.write pC6.direction "in" none])
    ∧ SetMode pC6 { folderExists := true, dirWriteRes := none } 9
      = (Except.error GErr.invalidMode, [])
    ∧ SetMode pC6 { folderExists := false, dirWriteRes := none } GPIOOutput
      = (Except.error (GErr.notEnabled pC6.port), []) := by
  refine ⟨?_, ?_, ?_⟩
  · exact ((C6_SetMode_spec pC6 { folderExists := true, dirWriteRes := none } GPIOInput).2.1
      rfl rfl).1
  · exact (C6_SetMode_spec pC6 { folderExists := true, dirWriteRes := none } 9).2.2
      rfl (by decide) (by decide) (by decide) (by decide)
  · exact (C6_SetMode_spec pC6 { folderExists := false, dirWriteRes := none } GPIOOutput).1 rfl

/-! ### C7 -/

/-- C7: the SetValues goroutine applies incoming values through SetValue in
order and stops at the first write failure, sending exactly that error on
the one-slot error channel and processing none of the observations queued
after it; it also stops, with no error sent, on input closure and on
cancellation through its hook, and it ignores everything after the stopping
observation, so a stopped stream never resumes. -/
theorem C7_setValuesLoop_spec (p : GPort) (pre : List LoopIn) (v : Bool)
    (env : SetValueEnv) (post : List LoopIn) (e : GErr)
    (hpre : ∀ i ∈ pre, isOkRecv i = true)
    (hfail : (SetValue p env v).1 = Except.error e) :
    setValuesLoop p (pre ++ LoopIn.recv v env :: post) =
      { errSent := some e, calls := okCalls pre ++ [(v, Except.error e)],
        stop := StopReason.writeFailed }
    ∧ (∀ rest, setValuesLoop p (LoopIn.closed :: rest) =
        { errSent := none, calls := [], stop := StopReason.closedInput })
    ∧ (∀ rest, setValuesLoop p (LoopIn.cancel :: rest) =
        { errSent := none, calls := [], stop := StopReason.cancelled }) := by
  refine ⟨?_, fun _ => rfl, fun _ => rfl⟩
  revert hpre
  induction pre with
  | nil =>
    intro _
    simp [setValuesLoop, okCalls, hfail]
  | cons i pre ih =>
    intro hpre
    have hi := hpre i (List.mem_cons_self i pre)
    have hrest : ∀ j ∈ pre, isOkRecv j = true :=
      fun j hj => hpre j (List.mem_cons_of_mem i hj)
    cases i with
    | cancel => simp [isOkRecv] at hi
    | closed => simp [isOkRecv] at hi
    | recv w envw =>
      simp only [isOkRecv, Bool.and_eq_true, beq_iff_eq] at hi
      have hok : (SetValue p envw w).1 = Except.ok () := by
        simp [SetValue, checkEnabled, hi.1, hi.2]
      simp only [List.cons_append, setValuesLoop, hok, okCalls, List.append_eq]
      rw [ih hrest]

/-- C7 witness: a concrete run with one successful value, then a failing
write, then a queued value: the loop makes exactly the two calls, sends the
write error once, and stops. -/
theorem C7_setValuesLoop_spec_witness :
    setValuesLoop pC7
        [LoopIn.recv true { folderExists := true, writeRes := none },
         LoopIn.recv false { folderExists := true, writeRes := some FileErr.other },
         LoopIn.recv true { folderExists := true, writeRes := none }] =
      { errSent := some (GErr.writeFailed FileErr.other),
        calls := [(true, Except.ok ()),
          (false, Except.error (GErr.writeFailed FileErr.other))],
        stop := StopReason.writeFailed } :=
  (C7_setValuesLoop_spec pC7
    [LoopIn.recv true { folderExists := true, writeRes := none }]
    false { folderExists := true, writeRes := some FileErr.other }
    [LoopIn.recv true { folderExists := true, writeRes := none }]
    (GErr.writeFailed FileErr.other)
    (by decide) rfl).1

/-! ### C8 -/

/-- C8: Values on a disabled port returns the not-enabled error with nothing
written, no monitor started and no hook registered; on an enabled port it
writes the token both to the edge file before buildMonitor runs; when the
edge write fails it returns that write error and the trace holds no monitor
start and the registry is unchanged; on success the trace is the edge write
followed by the monitor start and the registry gains exactly the one new
hook. -/
theorem C8_Values_spec (p : GPort) (env : ValuesEnv) (buffersize : Int) :
    (env.folderExists = false →
      Values p env buffersize = (Except.error (GErr.notEnabled p.port), [], p))
    ∧ (∀ e, env.folderExists = true → env.edgeWriteRes = some e →
        Values p env buffersize =
          (Except.error (GErr.writeFailed e), [Ev.write p.edge "both" (some e)], p))
    ∧ (env.folderExists = true → env.edgeWriteRes = none → env.monitorRes = none →
        Values p env buffersize =
          (Except.ok (),
            [Ev.write p.edge "both" none, Ev.monitorStart p.value buffersize],
            { p with resetters := p.resetters ++ [env.monitorHook] })) := by
  refine ⟨?_, ?_, ?_⟩
  · intro h
    simp [Values, checkEnabled, h]
  · intro e h he
    simp [Values, checkEnabled, h, he]
  · intro h he hm
    simp [Values, checkEnabled, h, he, hm]

/-- C8 witness: Values evaluated on a concrete port in the success case, the
failed-edge-write case, and the disabled case. -/
theorem C8_Values_spec_witness :
    Values pC8 { folderExists := true, edgeWriteRes := none, monitorRes := none, monitorHook := 9 } 16
      = (Except.ok (),
          [Ev.write pC8.edge "both" none, Ev.monitorStart pC8.value 16],
          { pC8 with resetters := pC8.resetters ++ [9] })
    ∧ Values pC8 { folderExists := true, edgeWriteRes := some FileErr.other, monitorRes := none, monitorHook := 9 } 16
      = (Except.error (GErr.writeFailed FileErr.other),
          [Ev.write pC8.edge "both" (some FileErr.other)], pC8)
    ∧ Values pC8 { folderExists := false, edgeWriteRes := none, monitorRes := none, monitorHook := 9 } 16
      = (Except.error (GErr.notEnabled pC8.port), [], pC8) := by
  refine ⟨?_, ?_, ?_⟩
  · exact (C8_Values_spec pC8 { folderExists := true, edgeWriteRes := none, monitorRes := none, monitorHook := 9 } 16).2.2 rfl rfl rfl
  · exact (C8_Values_spec pC8 { folderExists := true, edgeWriteRes := some FileErr.other, monitorRes := none, monitorHook := 9 } 16).2.1 FileErr.other rfl rfl
  · exact (C8_Values_spec pC8 { folderExists := false, edgeWriteRes := none, monitorRes := none, monitorHook := 9 } 16).1 rfl

/-! ### C9 -/

/-- C9: when the file is already absent at call time, awaitFileRemove
resolves synchronously with success and spawns no background polling task,
while awaitFileCreate does not short-circuit in the symmetric
already-exists case: it always spawns the task and never resolves at call
time. -/
theorem C9_awaitRemove_short_circuit :
    awaitFileRemove false = { immediateRes := some none, spawnsTask := false }
    ∧ ∀ b : Bool, awaitFileCreate b = { immediateRes := none, spawnsTask := true } := by
  exact ⟨rfl, fun _ => rfl⟩

/-! ### C10 -/

/-- C10: on an enabled port whose direction file reads as d, IsOutput
returns, with no error, true exactly when d is not the token in: any
unrecognized or malformed direction content is reported as output. -/
theorem C10_IsOutput_spec (p : GPort) (env : IsOutputEnv) (d : String)
    (h1 : env.folderExists = true) (h2 : env.dirRead = Except.ok d) :
    IsOutput p env = Except.ok (!(d == "in"))
    ∧ (IsOutput p env = Except.ok true ↔ d ≠ "in") := by
  constructor
  · simp [IsOutput, checkEnabled, h1, h2]
  · simp [IsOutput, checkEnabled, h1, h2]

/-- C10 witness: malformed direction content on an enabled port is reported
as output with no error. -/
theorem C10_IsOutput_spec_witness :
    IsOutput (newGpio "/sys/class/gpio" 4)
        { folderExists := true, dirRead := Except.ok "garbage" } = Except.ok true :=
  (C10_IsOutput_spec (newGpio "/sys/class/gpio" 4)
    { folderExists := true, dirRead := Except.ok "garbage" } "garbage" rfl rfl).2.mpr
    (by decide)

end Gopi
